import Mathlib

/-!
Shallow embedding of the Longenix risk-calculation engine and lab-value
normalization layer (js/calculators.js, js/lab_parser.js, and the
input-gathering fragment of js/report.js).

Modelling conventions:
* JS numbers are modelled as exact rationals (every operation the claims
  touch is a field operation, comparison, min/max or table lookup);
  transcendental Math functions (exp, log, log10) are taken as explicit
  function parameters of the definitions that use them.
* JS null/undefined is modelled as Option.none; JS falsiness on numbers
  (null, undefined, 0, NaN are falsy) is modelled by falsyQ.
* Fallible numeric parsing (parseFloat over a stripped string) returns
  Option; a non-finite parse is none, exactly as the source maps it.
-/

/-- JS truthiness test on an optional number: null/undefined and 0 are falsy
(mirrors uses of `!x` and `x||d` on numbers in the source). -/
def falsyQ : Option ℚ → Bool
  | none => true
  | some x => decide (x = 0)

/-- `x || 0` on an optional number (e.g. `fh.first||0`, `sbp||0`): null
becomes 0, 0 stays 0. -/
def jsOrZero (v : Option ℚ) : ℚ := v.getD 0

/-- `(+x) || d` as used by Report.render to gather inputs: null, undefined
and 0 are replaced by the default d. -/
def jsOrDefault (v : Option ℚ) (d : ℚ) : ℚ :=
  match v with
  | none => d
  | some x => if x = 0 then d else x

/-- Does predicate p hold of some suffix of the list?  (Used to model
unanchored regular-expression search.) -/
def anySuffix (p : List Char → Bool) : List Char → Bool
  | [] => p []
  | c :: rest => p (c :: rest) || anySuffix p rest

/-- Substring test: pat occurs somewhere inside s. -/
def containsList (pat s : List Char) : Bool :=
  anySuffix (fun t => pat.isPrefixOf t) s

/-- String.trim of js (both ends), on character lists. -/
def trimList (s : List Char) : List Char :=
  ((s.dropWhile Char.isWhitespace).reverse.dropWhile Char.isWhitespace).reverse

/-- toLowerCase on character lists (the labels and unit hints exercised by
the claims are ASCII apart from the micro sign, which is already
lower-case, so ASCII lowering coincides with the JS behaviour). -/
def lowerList (s : List Char) : List Char := s.map Char.toLower

/-- lab_parser.js `norm`: trim then lowercase. -/
def normList (s : List Char) : List Char := lowerList (trimList s)

/-- lab_parser.js `num`, step 1: `String(v).replace(/[^0-9.\-]/g,'')`. -/
def stripNonNum (s : List Char) : List Char :=
  s.filter (fun c => c.isDigit || c == '.' || c == '-')

/-- Value of a digit run as a natural number. -/
def digitsToNat (ds : List Char) : ℕ :=
  ds.foldl (fun acc c => acc * 10 + (c.toNat - 48)) 0

/-- Value of a fractional digit run. -/
def fracValue (ds : List Char) : ℚ :=
  (digitsToNat ds : ℚ) / (10 : ℚ) ^ ds.length

/-- parseFloat on a string already stripped to [0-9.-], without the leading
sign: an integer part, optionally a dot and a fraction part, trailing junk
ignored; no digits at all parses to NaN (none). -/
def parseUnsignedQ (cs : List Char) : Option ℚ :=
  let ip := cs.takeWhile Char.isDigit
  let rest := cs.dropWhile Char.isDigit
  match rest with
  | '.' :: rest2 =>
    let fp := rest2.takeWhile Char.isDigit
    if ip.isEmpty && fp.isEmpty then none
    else some ((digitsToNat ip : ℚ) + fracValue fp)
  | _ => if ip.isEmpty then none else some ((digitsToNat ip : ℚ))

/-- lab_parser.js `num`: strip every character outside [0-9.-], parseFloat,
and map a non-finite result to absent.  (After stripping, the only
non-finite parseFloat outcome is NaN, i.e. no leading number.) -/
def numParse (s : String) : Option ℚ :=
  match stripNonNum s.data with
  | '-' :: rest => (parseUnsignedQ rest).map (fun q => -q)
  | cs => parseUnsignedQ cs

/-- Does the normalized unit text mention a µmol spelling
(µmol / umol / μmol / micromol), as tested by detectCreatinine? -/
def hasUmolToken (txt : List Char) : Bool :=
  containsList "µmol".data txt || containsList "umol".data txt ||
  containsList "μmol".data txt || containsList "micromol".data txt

/-- lab_parser.js `detectCreatinine(v, unitHint)`: µmol spellings keep the
value, an mg/dl mention converts by 88.4, otherwise a magnitude heuristic
(values above 15 are taken as µmol/L already, the rest as mg/dL). -/
def detectCreatinine (v : String) (unitHint : Option String) : Option ℚ :=
  let txt := normList (unitHint.getD "").data
  if hasUmolToken txt then numParse v
  else if containsList "mg/dl".data txt then (numParse v).map (fun q => q * 88.4)
  else
    match numParse v with
    | none => none
    | some val => if 15 < val then some val else some (val * 88.4)

/-! ## Unit conversions (calculators.js, `Units`) -/

def Units.mgdl_to_mmol_glucose (v : ℚ) : ℚ := v / 18
def Units.mmol_to_mgdl_glucose (v : ℚ) : ℚ := v * 18
def Units.mgdl_to_mmol_trig (v : ℚ) : ℚ := v / 88.57
def Units.mmol_to_mgdl_trig (v : ℚ) : ℚ := v * 88.57
def Units.mgdl_to_mmol_chol (v : ℚ) : ℚ := v / 38.67
def Units.mmol_to_mgdl_chol (v : ℚ) : ℚ := v * 38.67
def Units.umol_to_mgdl_creatinine (v : ℚ) : ℚ := v / 88.4
def Units.mgdl_to_umol_creatinine (v : ℚ) : ℚ := v * 88.4

/-! ## Lab Normalizer: KEYMAP label matching (lab_parser.js)

Each entry below embeds one regular expression of the KEYMAP rule list as a
boolean predicate on the normalized (trimmed, lowercased) label.  The
embedded labels contain no newline, so `.` matches any character. -/

/-- \w of js regexes: [A-Za-z0-9_]. -/
def isWordChar (c : Char) : Bool := c.isAlphanum || c == '_'

/-- /^hba1c/ -/
def matchHba1c (nl : List Char) : Bool := "hba1c".data.isPrefixOf nl

/-- /^(fasting\s*)?glucose/ -/
def matchGlucose (nl : List Char) : Bool :=
  "glucose".data.isPrefixOf nl ||
  ("fasting".data.isPrefixOf nl &&
    "glucose".data.isPrefixOf ((nl.drop 7).dropWhile Char.isWhitespace))

/-- /^(total\s+)?chol.*total|^cholesterol,\s*total/ -/
def matchTc (nl : List Char) : Bool :=
  ("chol".data.isPrefixOf nl && containsList "total".data (nl.drop 4)) ||
  ("total".data.isPrefixOf nl &&
    (match nl.drop 5 with
     | [] => false
     | c :: rest =>
       c.isWhitespace &&
       (let t := (c :: rest).dropWhile Char.isWhitespace
        "chol".data.isPrefixOf t && containsList "total".data (t.drop 4)))) ||
  ("cholesterol,".data.isPrefixOf nl &&
    "total".data.isPrefixOf ((nl.drop 12).dropWhile Char.isWhitespace))

/-- /^hdl/ -/
def matchHdl (nl : List Char) : Bool := "hdl".data.isPrefixOf nl

/-- /^ldl/ -/
def matchLdl (nl : List Char) : Bool := "ldl".data.isPrefixOf nl

/-- /^trig|^tg\b|triglyceride/ -/
def matchTrig (nl : List Char) : Bool :=
  "trig".data.isPrefixOf nl ||
  ("tg".data.isPrefixOf nl &&
    (match nl.drop 2 with
     | [] => true
     | c :: _ => !(isWordChar c))) ||
  containsList "triglyceride".data nl

/-- /^creatinine/ -/
def matchCreatinine (nl : List Char) : Bool := "creatinine".data.isPrefixOf nl

/-- The unanchored second branch of the ACR rule, at one position:
albumin, then at most one extra character, then creatinine, then ratio
somewhere later. -/
def acrBranchAt (t : List Char) : Bool :=
  "albumin".data.isPrefixOf t &&
  (let u := t.drop 7
   ("creatinine".data.isPrefixOf u && containsList "ratio".data (u.drop 10)) ||
   (match u with
    | [] => false
    | _ :: u2 => "creatinine".data.isPrefixOf u2 && containsList "ratio".data (u2.drop 10)))

/-- /^acr|albumin.?creatinine.*ratio/ -/
def matchAcr (nl : List Char) : Bool :=
  "acr".data.isPrefixOf nl || anySuffix acrBranchAt nl

/-- /^albumin(?!.*creatinine)/ -/
def matchAlbumin (nl : List Char) : Bool :=
  "albumin".data.isPrefixOf nl && !(containsList "creatinine".data (nl.drop 7))

/-- `protein` after at most one extra character. -/
def proteinNear (u : List Char) : Bool :=
  "protein".data.isPrefixOf u ||
  (match u with
   | [] => false
   | _ :: u2 => "protein".data.isPrefixOf u2)

/-- The unanchored c.?reactive.?protein branch, at one position. -/
def crpBranchAt (t : List Char) : Bool :=
  match t with
  | [] => false
  | c :: t1 =>
    c == 'c' &&
    (("reactive".data.isPrefixOf t1 && proteinNear (t1.drop 8)) ||
     (match t1 with
      | [] => false
      | _ :: t2 => "reactive".data.isPrefixOf t2 && proteinNear (t2.drop 8)))

/-- /^crp|c.?reactive.?protein/ -/
def matchCrp (nl : List Char) : Bool :=
  "crp".data.isPrefixOf nl || anySuffix crpBranchAt nl

/-- /^wbc|white.*cell/ -/
def matchWbc (nl : List Char) : Bool :=
  "wbc".data.isPrefixOf nl ||
  anySuffix (fun t => "white".data.isPrefixOf t && containsList "cell".data (t.drop 5)) nl

/-- /^rdw/ -/
def matchRdw (nl : List Char) : Bool := "rdw".data.isPrefixOf nl

/-- /^mcv/ -/
def matchMcv (nl : List Char) : Bool := "mcv".data.isPrefixOf nl

/-- /^lymph|lymphocyte/ -/
def matchLymph (nl : List Char) : Bool :=
  "lymph".data.isPrefixOf nl || containsList "lymphocyte".data nl

/-- /^alkaline.*phosph|^alp\b/ -/
def matchAlkp (nl : List Char) : Bool :=
  ("alkaline".data.isPrefixOf nl && containsList "phosph".data (nl.drop 8)) ||
  ("alp".data.isPrefixOf nl &&
    (match nl.drop 3 with
     | [] => true
     | c :: _ => !(isWordChar c)))

/-- /^sbp|systolic/ -/
def matchSbp (nl : List Char) : Bool :=
  "sbp".data.isPrefixOf nl || containsList "systolic".data nl

/-- /^dbp|diastolic/ -/
def matchDbp (nl : List Char) : Bool :=
  "dbp".data.isPrefixOf nl || containsList "diastolic".data nl

/-- The canonical analyte keys produced by KEYMAP. -/
inductive AnalyteKey where
  | hba1c_pct
  | glucose
  | tc
  | hdl
  | ldl
  | triglycerides
  | creatinine_umolL
  | acr_mg_g
  | albumin_gL
  | crp_mgdl
  | wbc_10e3_uL
  | rdw_pct
  | mcv_fl
  | lymph_pct
  | alp_uL
  | sbp
  | dbp
deriving DecidableEq, Repr

/-- lab_parser.js KEYMAP: the ordered rule list, pairing each label pattern
with the canonical key its mapping function produces. -/
def KEYMAP : List ((List Char → Bool) × AnalyteKey) :=
  [(matchHba1c, AnalyteKey.hba1c_pct),
   (matchGlucose, AnalyteKey.glucose),
   (matchTc, AnalyteKey.tc),
   (matchHdl, AnalyteKey.hdl),
   (matchLdl, AnalyteKey.ldl),
   (matchTrig, AnalyteKey.triglycerides),
   (matchCreatinine, AnalyteKey.creatinine_umolL),
   (matchAcr, AnalyteKey.acr_mg_g),
   (matchAlbumin, AnalyteKey.albumin_gL),
   (matchCrp, AnalyteKey.crp_mgdl),
   (matchWbc, AnalyteKey.wbc_10e3_uL),
   (matchRdw, AnalyteKey.rdw_pct),
   (matchMcv, AnalyteKey.mcv_fl),
   (matchLymph, AnalyteKey.lymph_pct),
   (matchAlkp, AnalyteKey.alp_uL),
   (matchSbp, AnalyteKey.sbp),
   (matchDbp, AnalyteKey.dbp)]

/-- parseCSV / parseXLSX row matching: the label is normalized and the rules
are tried in KEYMAP order, the first match (and only it) determining the
output analyte key; a label matching no rule produces nothing. -/
def keymapFirstMatch (label : String) : Option AnalyteKey :=
  (KEYMAP.find? (fun e => e.1 (normList label.data))).map (fun e => e.2)

/-! ## Derived biomarkers and helpers (calculators.js) -/

/-- calculators.js BMI: `(!h_cm||!w_kg)? null : w_kg/Math.pow(h_cm/100,2)`. -/
def BMI : Option ℚ → Option ℚ → Option ℚ
  | some h, some w => if h = 0 || w = 0 then none else some (w / (h / 100) ^ 2)
  | _, _ => none

/-- calculators.js WHtR: `(!waist_cm||!h_cm)? null : waist_cm/h_cm`. -/
def WHtR : Option ℚ → Option ℚ → Option ℚ
  | some waist, some h => if waist = 0 || h = 0 then none else some (waist / h)
  | _, _ => none

/-- calculators.js Derived.AIP, with Math.log10 passed as a function
parameter: null when triglycerides or HDL is missing or HDL is exactly 0,
otherwise log10 of the mg/dL ratio (converting both from mmol/L first when
the shared unit says so). -/
def Derived.AIP (log10Q : ℚ → ℚ) (trig hdl : Option ℚ) (unit : String) : Option ℚ :=
  match trig, hdl with
  | some t, some h =>
    if h = 0 then none
    else
      let T := if unit == "mmol/L" then Units.mmol_to_mgdl_trig t else t
      let H := if unit == "mmol/L" then Units.mmol_to_mgdl_chol h else h
      some (log10Q (T / H))
  | _, _ => none

/-- Family-history record for one disease category: counts of affected
relatives by degree (fields may be absent, read through `||0`). -/
structure FamilyHistory where
  first : Option ℚ
  second : Option ℚ
  third : Option ℚ

/-- calculators.js familyHistoryAdj: null base propagates; an absent
family-history record returns the base unchanged; otherwise the base is
multiplied by the relative bump and capped at 95. -/
def familyHistoryAdj (basePct : Option ℚ) (fh : Option FamilyHistory) : Option ℚ :=
  match basePct, fh with
  | none, _ => none
  | some b, none => some b
  | some b, some f =>
    some (min 95 (b * (1 + jsOrZero f.first * 0.10 + jsOrZero f.second * 0.05
                         + jsOrZero f.third * 0.02)))

/-! ## Framingham general CVD (calculators.js) -/

/-- `(sex||"").toLowerCase().startsWith("m")` -/
def jsStartsWithM (sex : String) : Bool := "m".data.isPrefixOf (lowerList sex.data)

/-- First band of the list containing x contributes its points; no band, no
points (the loops over ageBands and the cholesterol rows). -/
def bandPts : List (ℚ × ℚ × Int) → ℚ → Int
  | [], _ => 0
  | (lo, hi, p) :: rest, x => if lo ≤ x ∧ x ≤ hi then p else bandPts rest x

def framAgeBandsM : List (ℚ × ℚ × Int) :=
  [(20,34,-9),(35,39,-4),(40,44,0),(45,49,3),(50,54,6),(55,59,8),(60,64,10),
   (65,69,11),(70,74,12),(75,79,13)]

def framAgeBandsF : List (ℚ × ℚ × Int) :=
  [(20,34,-7),(35,39,-3),(40,44,0),(45,49,3),(50,54,6),(55,59,8),(60,64,10),
   (65,69,12),(70,74,14),(75,79,16)]

/-- Age-decade key for the total-cholesterol table. -/
def framAgeKey (age : ℚ) : String :=
  if age ≤ 39 then "20-39" else if age ≤ 49 then "40-49" else if age ≤ 59 then "50-59"
  else if age ≤ 69 then "60-69" else "70-79"

/-- tcTable rows, per sex and age-decade key. -/
def framTcRows (male : Bool) (key : String) : List (ℚ × ℚ × Int) :=
  if male then
    if key == "20-39" then [(160,199,4),(200,239,7),(240,279,9),(280,1000,11)]
    else if key == "40-49" then [(160,199,3),(200,239,5),(240,279,6),(280,1000,8)]
    else if key == "50-59" then [(160,199,2),(200,239,3),(240,279,4),(280,1000,5)]
    else if key == "60-69" then [(160,199,1),(200,239,1),(240,279,2),(280,1000,3)]
    else [(160,199,0),(200,239,0),(240,279,1),(280,1000,1)]
  else
    if key == "20-39" then [(160,199,4),(200,239,8),(240,279,11),(280,1000,13)]
    else if key == "40-49" then [(160,199,3),(200,239,6),(240,279,8),(280,1000,10)]
    else if key == "50-59" then [(160,199,2),(200,239,4),(240,279,5),(280,1000,7)]
    else if key == "60-69" then [(160,199,1),(200,239,2),(240,279,3),(280,1000,4)]
    else [(160,199,1),(200,239,1),(240,279,2),(280,1000,2)]

/-- HDL adjustment tiers; an absent HDL contributes nothing (the source
null-checks hdl_mgdl before this block). -/
def framHdlPts : Option ℚ → Int
  | none => 0
  | some h => if 60 ≤ h then -1 else if 50 ≤ h then 0 else if 40 ≤ h then 1 else 2

/-- Systolic-BP tiers, split by treatment and sex. -/
def framSbpPts (sbp : ℚ) (treated male : Bool) : Int :=
  if male then
    if treated then
      if sbp < 120 then 0 else if sbp ≤ 129 then 1 else if sbp ≤ 139 then 2
      else if sbp ≤ 159 then 2 else 3
    else
      if sbp < 120 then 0 else if sbp ≤ 129 then 0 else if sbp ≤ 139 then 1
      else if sbp ≤ 159 then 1 else 2
  else
    if treated then
      if sbp < 120 then 0 else if sbp ≤ 129 then 3 else if sbp ≤ 139 then 4
      else if sbp ≤ 159 then 5 else 6
    else
      if sbp < 120 then 0 else if sbp ≤ 129 then 1 else if sbp ≤ 139 then 2
      else if sbp ≤ 159 then 3 else 4

/-- Smoking add, age-banded and sex-specific. -/
def framSmokePts (age : ℚ) (male : Bool) : Int :=
  if male then
    if age ≤ 39 then 8 else if age ≤ 49 then 5 else if age ≤ 59 then 3
    else if age ≤ 69 then 1 else 1
  else
    if age ≤ 39 then 9 else if age ≤ 49 then 7 else if age ≤ 59 then 4
    else if age ≤ 69 then 2 else 1

/-- Male points-to-percentage map.  The source sorts the numeric keys
ascending before the lookup loop, so the list is kept in ascending key
order here. -/
def framMapM : List (Int × ℚ) :=
  [(-100,1),(-1,1),(0,1),(1,1),(2,1),(3,1),(4,1),(5,2),(6,2),(7,3),(8,4),(9,5),
   (10,6),(11,8),(12,10),(13,12),(14,16),(15,20),(16,25),(17,31),(18,37),(19,45),
   (20,53),(21,63)]

/-- Female points-to-percentage map, ascending key order. -/
def framMapF : List (Int × ℚ) :=
  [(-100,1),(-1,1),(0,1),(1,1),(2,1),(3,1),(4,1),(5,1),(6,1),(7,2),(8,2),(9,2),
   (10,3),(11,4),(12,5),(13,6),(14,8),(15,11),(16,14),(17,17),(18,22),(19,27),
   (20,33),(21,40)]

def framMap (male : Bool) : List (Int × ℚ) := if male then framMapM else framMapF

/-- The lookup loop `let chosen = keys[0]; for k of keys: if (pts>=k) chosen=k`. -/
def chooseAux (p : Int) : List Int → Int → Int
  | [], c => c
  | k :: ks, c => chooseAux p ks (if k ≤ p then k else c)

def chooseFloorKey (keys : List Int) (p : Int) : Int :=
  chooseAux p keys (keys.headD 0)

/-- `table[chosen.toString()] || 1`: the percentage stored at the chosen
key, with js falsiness sending a missing (or zero) entry to 1. -/
def tableGetQ (tbl : List (Int × ℚ)) (k : Int) : ℚ :=
  match tbl.find? (fun e => e.1 == k) with
  | some e => if e.2 = 0 then 1 else e.2
  | none => 1

/-- Final stage of Framingham.points: total points to a 10-year percentage
through the sex-specific map. -/
def framPctFromPoints (male : Bool) (pts : Int) : ℚ :=
  tableGetQ (framMap male) (chooseFloorKey ((framMap male).map Prod.fst) pts)

structure FraminghamInput where
  age : ℚ
  sex : String
  tc_mgdl : ℚ
  hdl_mgdl : Option ℚ
  sbp : Option ℚ
  bp_treated : Bool
  smoker : Bool
  diabetes : Bool

/-- calculators.js Framingham.points: sums age, cholesterol, HDL, systolic
(missing systolic read as 0 through `sbp||0`), smoking and diabetes points,
then maps the total through the sex-specific percentage table.  Total over
all inputs. -/
def Framingham.points (i : FraminghamInput) : Int × ℚ :=
  let male := jsStartsWithM i.sex
  let agePts := bandPts (if male then framAgeBandsM else framAgeBandsF) i.age
  let tcPts := if 160 ≤ i.tc_mgdl then bandPts (framTcRows male (framAgeKey i.age)) i.tc_mgdl else 0
  let hdlPts := framHdlPts i.hdl_mgdl
  let sbpPts := framSbpPts (jsOrZero i.sbp) i.bp_treated male
  let smokePts := if i.smoker then framSmokePts i.age male else 0
  let diabPts := if i.diabetes then (if male then 2 else 4) else 0
  let pts := agePts + tcPts + hdlPts + sbpPts + smokePts + diabPts
  (pts, framPctFromPoints male pts)

/-! ## FINDRISC, COPD-PS, CAIDE, KDIGO, Cancer (calculators.js) -/

structure FINDRISCInput where
  age : ℚ
  bmi : ℚ
  waist_cm : ℚ
  daily_activity : Bool
  veg_daily : Bool
  meds_htn : Bool
  high_glucose_history : Bool
  family_history : Option String

def FINDRISC_score (i : FINDRISCInput) : Int :=
  (if i.age < 45 then 0 else if i.age ≤ 54 then 2 else if i.age ≤ 64 then 3 else 4)
  + (if i.bmi < 25 then 0 else if i.bmi < 30 then 1 else 3)
  + (if i.waist_cm < 94 then 0 else if i.waist_cm < 102 then 3 else 4)
  + (if i.daily_activity then 0 else 2)
  + (if i.veg_daily then 0 else 1)
  + (if i.meds_htn then 2 else 0)
  + (if i.high_glucose_history then 5 else 0)
  + (if i.family_history = some "first" then 5
     else if i.family_history = some "second" then 3 else 0)

def FINDRISC_riskFromScore (s : Int) : ℚ :=
  if s ≤ 11 then 1 else if s ≤ 14 then 4 else if s ≤ 20 then 17 else 33

/-- calculators.js FINDRISC: (score, risk_pct). -/
def FINDRISC (i : FINDRISCInput) : Int × ℚ :=
  (FINDRISC_score i, FINDRISC_riskFromScore (FINDRISC_score i))

/-- calculators.js COPD_PS: capped score to fixed likelihood bands. -/
def COPD_PS (score : ℚ) : ℚ :=
  if score ≤ 4 then 5 else if score ≤ 6 then 15 else if score ≤ 8 then 25 else 35

/-- `v != null && v < c` on an optional number. -/
def optLt (v : Option ℚ) (c : ℚ) : Bool :=
  match v with
  | some x => decide (x < c)
  | none => false

/-- `v != null && v >= c` on an optional number. -/
def optGe (v : Option ℚ) (c : ℚ) : Bool :=
  match v with
  | some x => decide (c ≤ x)
  | none => false

structure CAIDEInput where
  age : ℚ
  sex : String
  education_years : Option ℚ
  sbp : Option ℚ
  bmi : Option ℚ
  tc_mmol : Option ℚ
  physically_active : Bool

def CAIDE_score (i : CAIDEInput) : Int :=
  (if 47 ≤ i.age ∧ i.age ≤ 53 then 3 else if 53 < i.age then 4 else 0)
  + (if jsStartsWithM i.sex then 1 else 0)
  + (if optLt i.education_years 10 then 2 else 0)
  + (if optGe i.sbp 140 then 2 else 0)
  + (if optGe i.bmi 30 then 2 else 0)
  + (if optGe i.tc_mmol 6.5 then 2 else 0)
  + (if i.physically_active then 0 else 1)

def CAIDE_riskFromScore (s : Int) : ℚ :=
  if s ≤ 5 then 1 else if s ≤ 6 then 1.9 else if s ≤ 7 then 4.2
  else if s ≤ 8 then 7.4 else if s ≤ 9 then 14 else if s ≤ 10 then 19.6
  else if s ≤ 11 then 31.7 else if s ≤ 12 then 52.6 else 100

/-- calculators.js CAIDE: (score, risk_pct). -/
def CAIDE (i : CAIDEInput) : Int × ℚ :=
  (CAIDE_score i, CAIDE_riskFromScore (CAIDE_score i))

/-- calculators.js KDIGO, non-null path: the fixed 6x3 grid of nominal risk
percentages addressed by the eGFR G-category row and the ACR A-category
column.  (The source returns nulls when either input is missing; the
report layer guards that case before calling.) -/
def KDIGO_risk (egfr acr_mg_g : ℚ) : ℚ :=
  let row : ℚ × ℚ × ℚ :=
    if 90 ≤ egfr then (5, 10, 20)
    else if 60 ≤ egfr then (7, 15, 25)
    else if 45 ≤ egfr then (10, 20, 35)
    else if 30 ≤ egfr then (15, 30, 45)
    else if 15 ≤ egfr then (25, 45, 60)
    else (60, 75, 90)
  if acr_mg_g < 30 then row.1 else if acr_mg_g < 300 then row.2.1 else row.2.2

/-- calculators.js CancerGeneral: additive heuristic base risk with a 0.5
floor.  (The sex argument is accepted and unused, exactly as in the
source.) -/
def CancerGeneral (age : ℚ) (sex : String) (smoker : Bool)
    (alcohol_units bmi activity_days : Option ℚ) : ℚ :=
  let b1 : ℚ := if 50 ≤ age then 6 else 2
  let b2 := if 60 ≤ age then 10 else b1
  let b3 := if 70 ≤ age then 15 else b2
  let b4 := b3 + (if smoker then 5 else 0)
  let b5 := b4 + (if falsyQ alcohol_units = false ∧ 14 < jsOrZero alcohol_units then 2 else 0)
  let b6 := b5 + (if falsyQ bmi = false ∧ 30 ≤ jsOrZero bmi then 2 else 0)
  let b7 := b6 - (if falsyQ activity_days = false ∧ 5 ≤ jsOrZero activity_days then 1 else 0)
  max 0.5 b7

/-! ## Phenotypic Age (calculators.js) -/

structure PhenoIn where
  albumin_gL : Option ℚ
  creatinine_umolL : Option ℚ
  glucose_mmolL : Option ℚ
  crp_mgdl : Option ℚ
  lymph_pct : Option ℚ
  mcv_fl : Option ℚ
  rdw_pct : Option ℚ
  alp_uL : Option ℚ
  wbc_10e3_uL : Option ℚ
  age_years : Option ℚ

structure PhenoOut where
  pheno_age : Option ℚ
  mortality_10yr_pct : Option ℚ
deriving DecidableEq

/-- The linear combination xb of the nine biomarkers and age, with the
log-transformed, epsilon-floored CRP (Math.log passed in as logQ). -/
def phenoXb (logQ : ℚ → ℚ)
    (alb cre glu crp lym mcv rdw alp wbc age : ℚ) : ℚ :=
  (-0.0336) * alb + 0.0095 * cre + 0.1953 * glu
  + 0.0954 * logQ (max crp (1 / 1000000000))
  - 0.0120 * lym + 0.0268 * mcv + 0.3306 * rdw + 0.0019 * alp
  + 0.0554 * wbc + 0.0804 * age - 19.9067

/-- Gompertz-form 10-year mortality probability from xb (gamma = 0.0077
over a 120-unit horizon), with Math.exp passed in as expQ. -/
def phenoMort (expQ : ℚ → ℚ) (xb : ℚ) : ℚ :=
  1 - expQ (-(expQ xb) * (expQ (120 * 0.0077) - 1) / 0.0077)

/-- Inversion of the fixed published formula giving phenotypic age in
years from the mortality probability. -/
def phenoAgeFromMort (logQ : ℚ → ℚ) (mort : ℚ) : ℚ :=
  141.50225 + logQ ((-0.00553) * logQ (1 - mort)) / 0.090165

/-- calculators.js PhenotypicAge: the guard
`vals.some(v => v==null || isNaN(v))` nulls the whole result when any of
the ten inputs is absent (NaN has no counterpart among the exact rationals,
so the isNaN disjunct is vacuous here); otherwise both outputs are
computed.  The getD unwraps below sit under the guard, which has already
established that every field is present. -/
def PhenotypicAge (expQ logQ : ℚ → ℚ) (i : PhenoIn) : PhenoOut :=
  let vals := [i.albumin_gL, i.creatinine_umolL, i.glucose_mmolL, i.crp_mgdl,
               i.lymph_pct, i.mcv_fl, i.rdw_pct, i.alp_uL, i.wbc_10e3_uL, i.age_years]
  if vals.any (fun v => v.isNone) then ⟨none, none⟩
  else
    let xb := phenoXb logQ (i.albumin_gL.getD 0) (i.creatinine_umolL.getD 0)
      (i.glucose_mmolL.getD 0) (i.crp_mgdl.getD 0) (i.lymph_pct.getD 0)
      (i.mcv_fl.getD 0) (i.rdw_pct.getD 0) (i.alp_uL.getD 0)
      (i.wbc_10e3_uL.getD 0) (i.age_years.getD 0)
    let mort := phenoMort expQ xb
    ⟨some (phenoAgeFromMort logQ mort), some (mort * 100)⟩

/-! ## PDF-text normalization (lab_parser.js parsePDFText)

The regex searches over the flattened document text are abstracted as the
optional values the `find` helper returns for each analyte-specific
pattern (the result of `num` on the first capture group of the first
match); the per-analyte update logic that the claims are about is embedded
exactly.  Only the six dual-unit analyte blocks are embedded: the
single-pattern blocks write disjoint keys and cannot interact with them. -/

structure PDFMatches where
  glucose_mg : Option ℚ
  glucose_mmol : Option ℚ
  tc_mg : Option ℚ
  tc_mmol : Option ℚ
  hdl_mg : Option ℚ
  hdl_mmol : Option ℚ
  ldl_mg : Option ℚ
  ldl_mmol : Option ℚ
  trig_mg : Option ℚ
  trig_mmol : Option ℚ
  creat_mol : Option ℚ
  creat_mgdl : Option ℚ

/-- The output mapping being accumulated (the fields of `out` the embedded
blocks touch). -/
structure LabOut where
  glucose : Option ℚ
  glucose_unit : Option String
  tc : Option ℚ
  tc_unit : Option String
  hdl : Option ℚ
  hdl_unit : Option String
  ldl : Option ℚ
  triglycerides : Option ℚ
  triglycerides_unit : Option String
  creatinine_umolL : Option ℚ

def LabOut.empty : LabOut :=
  ⟨none, none, none, none, none, none, none, none, none, none⟩

/-- lab_parser.js guessUnitFromValue. -/
def guessUnitFromValue (v : ℚ) (kind : String) : Option String :=
  if kind == "glucose" then some (if v ≤ 15 then "mmol/L" else "mg/dL")
  else if kind == "trig" then some (if v ≤ 5 then "mmol/L" else "mg/dL")
  else if kind == "chol" then some (if v ≤ 10 then "mmol/L" else "mg/dL")
  else none

/-- setOut for key glucose: skip null values, store the value, and attach
`unit || out.glucose_unit || guessUnitFromValue(value,'glucose')`. -/
def setGlucose (o : LabOut) (value : Option ℚ) (unit : Option String) : LabOut :=
  match value with
  | none => o
  | some v =>
    ⟨some v,
     (unit.orElse (fun _ => o.glucose_unit)).orElse (fun _ => guessUnitFromValue v "glucose"),
     o.tc, o.tc_unit, o.hdl, o.hdl_unit, o.ldl, o.triglycerides,
     o.triglycerides_unit, o.creatinine_umolL⟩

/-- setOut for key tc (unit kind chol). -/
def setTc (o : LabOut) (value : Option ℚ) (unit : Option String) : LabOut :=
  match value with
  | none => o
  | some v =>
    ⟨o.glucose, o.glucose_unit, some v,
     (unit.orElse (fun _ => o.tc_unit)).orElse (fun _ => guessUnitFromValue v "chol"),
     o.hdl, o.hdl_unit, o.ldl, o.triglycerides, o.triglycerides_unit,
     o.creatinine_umolL⟩

/-- setOut for key hdl (unit kind chol). -/
def setHdl (o : LabOut) (value : Option ℚ) (unit : Option String) : LabOut :=
  match value with
  | none => o
  | some v =>
    ⟨o.glucose, o.glucose_unit, o.tc, o.tc_unit, some v,
     (unit.orElse (fun _ => o.hdl_unit)).orElse (fun _ => guessUnitFromValue v "chol"),
     o.ldl, o.triglycerides, o.triglycerides_unit, o.creatinine_umolL⟩

/-- setOut for key ldl: no unit tag is attached for ldl, the unit argument
is accepted and discarded exactly as in the source. -/
def setLdl (o : LabOut) (value : Option ℚ) (unit : Option String) : LabOut :=
  match value with
  | none => o
  | some v =>
    ⟨o.glucose, o.glucose_unit, o.tc, o.tc_unit, o.hdl, o.hdl_unit, some v,
     o.triglycerides, o.triglycerides_unit, o.creatinine_umolL⟩

/-- setOut for key triglycerides (unit kind trig). -/
def setTrig (o : LabOut) (value : Option ℚ) (unit : Option String) : LabOut :=
  match value with
  | none => o
  | some v =>
    ⟨o.glucose, o.glucose_unit, o.tc, o.tc_unit, o.hdl, o.hdl_unit, o.ldl,
     some v,
     (unit.orElse (fun _ => o.triglycerides_unit)).orElse (fun _ => guessUnitFromValue v "trig"),
     o.creatinine_umolL⟩

/-- setOut for key creatinine_umolL: no unit tag. -/
def setCreat (o : LabOut) (value : Option ℚ) : LabOut :=
  match value with
  | none => o
  | some v =>
    ⟨o.glucose, o.glucose_unit, o.tc, o.tc_unit, o.hdl, o.hdl_unit, o.ldl,
     o.triglycerides, o.triglycerides_unit, some v⟩

/-- parsePDFText glucose block: mg/dL first, `v = v ?? find(mmol)`, second
store guarded by `v!=null && !out.glucose` (truthiness). -/
def pdfGlucoseBlock (mg mmol : Option ℚ) (out : LabOut) : LabOut :=
  let v := mg
  let out := if v.isSome then setGlucose out v (some "mg/dL") else out
  let v := v.orElse (fun _ => mmol)
  if v.isSome && falsyQ out.glucose then setGlucose out v (some "mmol/L") else out

/-- parsePDFText total-cholesterol block: mg/dL first, the mmol/L attempt
guarded by `!out.tc` (truthiness). -/
def pdfTcBlock (mg mmol : Option ℚ) (out : LabOut) : LabOut :=
  let v := mg
  let out := if v.isSome then setTc out v (some "mg/dL") else out
  if falsyQ out.tc then
    (let v := mmol
     if v.isSome then setTc out v (some "mmol/L") else out)
  else out

/-- parsePDFText HDL block: mg/dL first, mmol/L attempt guarded by
`!out.hdl`. -/
def pdfHdlBlock (mg mmol : Option ℚ) (out : LabOut) : LabOut :=
  let v := mg
  let out := if v.isSome then setHdl out v (some "mg/dL") else out
  if falsyQ out.hdl then
    (let v := mmol
     if v.isSome then setHdl out v (some "mmol/L") else out)
  else out

/-- parsePDFText LDL block: mg/dL first, mmol/L attempt guarded by
`!out.ldl`. -/
def pdfLdlBlock (mg mmol : Option ℚ) (out : LabOut) : LabOut :=
  let v := mg
  let out := if v.isSome then setLdl out v (some "mg/dL") else out
  if falsyQ out.ldl then
    (let v := mmol
     if v.isSome then setLdl out v (some "mmol/L") else out)
  else out

/-- parsePDFText triglyceride block: mg/dL first, mmol/L attempt guarded
by `!out.triglycerides`. -/
def pdfTrigBlock (mg mmol : Option ℚ) (out : LabOut) : LabOut :=
  let v := mg
  let out := if v.isSome then setTrig out v (some "mg/dL") else out
  if falsyQ out.triglycerides then
    (let v := mmol
     if v.isSome then setTrig out v (some "mmol/L") else out)
  else out

/-- parsePDFText creatinine block: the (µ|u|μ)?mol/L pattern first, then
mg/dL times 88.4, guarded by the null test `out.creatinine_umolL==null`. -/
def pdfCreatBlock (molL mgdl : Option ℚ) (out : LabOut) : LabOut :=
  let v := molL
  let out := if v.isSome then setCreat out v else out
  if out.creatinine_umolL = none then
    (let v := mgdl
     if v.isSome then setCreat out (v.map (fun w => w * 88.4)) else out)
  else out

/-- lab_parser.js parsePDFText, dual-unit analyte blocks composed in source
order (glucose, tc, hdl, ldl, triglycerides, creatinine). -/
def parsePDFText (m : PDFMatches) : LabOut :=
  pdfCreatBlock m.creat_mol m.creat_mgdl
    (pdfTrigBlock m.trig_mg m.trig_mmol
      (pdfLdlBlock m.ldl_mg m.ldl_mmol
        (pdfHdlBlock m.hdl_mg m.hdl_mmol
          (pdfTcBlock m.tc_mg m.tc_mmol
            (pdfGlucoseBlock m.glucose_mg m.glucose_mmol LabOut.empty)))))

/-! ## Report-layer input gathering and model calls (js/report.js) -/

/-- Report.render: `+client?.demographics?.age || 50`. -/
def gatherAge (v : Option ℚ) : ℚ := jsOrDefault v 50

/-- Report.render: `+client?.biometrics?.height_cm || 170`. -/
def gatherHeightCm (v : Option ℚ) : ℚ := jsOrDefault v 170

/-- Report.render: `+client?.biometrics?.weight_kg || 70`. -/
def gatherWeightKg (v : Option ℚ) : ℚ := jsOrDefault v 70

/-- Report.render: `+client?.biometrics?.waist_cm || 90`. -/
def gatherWaistCm (v : Option ℚ) : ℚ := jsOrDefault v 90

/-- Report.render: `+client?.biometrics?.sbp || 120`. -/
def gatherSbp (v : Option ℚ) : ℚ := jsOrDefault v 120

/-- Report.render: `+client?.biometrics?.dbp || 80`. -/
def gatherDbp (v : Option ℚ) : ℚ := jsOrDefault v 80

/-- The BMI shown and fed to the risk models during report generation:
`BMI(height_cm, weight_kg)` after the gathering stage substituted its
defaults. -/
def reportBMI (height_cm weight_kg : Option ℚ) : Option ℚ :=
  BMI (some (gatherHeightCm height_cm)) (some (gatherWeightKg weight_kg))

/-- Report.render CVD block: Framingham is called only when both
tc_mgdl and hdl_mgdl are non-null, its risk is then pushed through the
family-history adjustment; otherwise cvd stays null. -/
def reportCVD (age : ℚ) (sex : String) (tc_mgdl hdl_mgdl : Option ℚ) (sbp : ℚ)
    (bp_treated smoker diabetes : Bool) (fh : Option FamilyHistory) : Option ℚ :=
  match tc_mgdl, hdl_mgdl with
  | some t, some h =>
    familyHistoryAdj
      (some (Framingham.points ⟨age, sex, t, some h, some sbp, bp_treated, smoker, diabetes⟩).2)
      fh
  | _, _ => none

/-! ## Helper lemmas -/

@[simp] theorem falsyQ_none : falsyQ none = true := rfl

@[simp] theorem falsyQ_some (x : ℚ) : falsyQ (some x) = decide (x = 0) := rfl

@[simp] theorem jsOrZero_none : jsOrZero none = 0 := rfl

@[simp] theorem jsOrZero_some (x : ℚ) : jsOrZero (some x) = x := rfl

@[simp] theorem setGlucose_none (o : LabOut) (u : Option String) :
    setGlucose o none u = o := rfl

@[simp] theorem setGlucose_glucose (o : LabOut) (x : ℚ) (u : Option String) :
    (setGlucose o (some x) u).glucose = some x := rfl

@[simp] theorem setGlucose_tc (o : LabOut) (v : Option ℚ) (u : Option String) :
    (setGlucose o v u).tc = o.tc := by cases v <;> rfl

@[simp] theorem setGlucose_hdl (o : LabOut) (v : Option ℚ) (u : Option String) :
    (setGlucose o v u).hdl = o.hdl := by cases v <;> rfl

@[simp] theorem setGlucose_ldl (o : LabOut) (v : Option ℚ) (u : Option String) :
    (setGlucose o v u).ldl = o.ldl := by cases v <;> rfl

@[simp] theorem setGlucose_trig (o : LabOut) (v : Option ℚ) (u : Option String) :
    (setGlucose o v u).triglycerides = o.triglycerides := by cases v <;> rfl

@[simp] theorem setGlucose_creat (o : LabOut) (v : Option ℚ) (u : Option String) :
    (setGlucose o v u).creatinine_umolL = o.creatinine_umolL := by cases v <;> rfl

@[simp] theorem setTc_none (o : LabOut) (u : Option String) :
    setTc o none u = o := rfl

@[simp] theorem setTc_tc (o : LabOut) (x : ℚ) (u : Option String) :
    (setTc o (some x) u).tc = some x := rfl

@[simp] theorem setTc_glucose (o : LabOut) (v : Option ℚ) (u : Option String) :
    (setTc o v u).glucose = o.glucose := by cases v <;> rfl

@[simp] theorem setTc_hdl (o : LabOut) (v : Option ℚ) (u : Option String) :
    (setTc o v u).hdl = o.hdl := by cases v <;> rfl

@[simp] theorem setTc_ldl (o : LabOut) (v : Option ℚ) (u : Option String) :
    (setTc o v u).ldl = o.ldl := by cases v <;> rfl

@[simp] theorem setTc_trig (o : LabOut) (v : Option ℚ) (u : Option String) :
    (setTc o v u).triglycerides = o.triglycerides := by cases v <;> rfl

@[simp] theorem setTc_creat (o : LabOut) (v : Option ℚ) (u : Option String) :
    (setTc o v u).creatinine_umolL = o.creatinine_umolL := by cases v <;> rfl

@[simp] theorem setHdl_none (o : LabOut) (u : Option String) :
    setHdl o none u = o := rfl

@[simp] theorem setHdl_hdl (o : LabOut) (x : ℚ) (u : Option String) :
    (setHdl o (some x) u).hdl = some x := rfl

@[simp] theorem setHdl_glucose (o : LabOut) (v : Option ℚ) (u : Option String) :
    (setHdl o v u).glucose = o.glucose := by cases v <;> rfl

@[simp] theorem setHdl_tc (o : LabOut) (v : Option ℚ) (u : Option String) :
    (setHdl o v u).tc = o.tc := by cases v <;> rfl

@[simp] theorem setHdl_ldl (o : LabOut) (v : Option ℚ) (u : Option String) :
    (setHdl o v u).ldl = o.ldl := by cases v <;> rfl

@[simp] theorem setHdl_trig (o : LabOut) (v : Option ℚ) (u : Option String) :
    (setHdl o v u).triglycerides = o.triglycerides := by cases v <;> rfl

@[simp] theorem setHdl_creat (o : LabOut) (v : Option ℚ) (u : Option String) :
    (setHdl o v u).creatinine_umolL = o.creatinine_umolL := by cases v <;> rfl

@[simp] theorem setLdl_none (o : LabOut) (u : Option String) :
    setLdl o none u = o := rfl

@[simp] theorem setLdl_ldl (o : LabOut) (x : ℚ) (u : Option String) :
    (setLdl o (some x) u).ldl = some x := rfl

@[simp] theorem setLdl_glucose (o : LabOut) (v : Option ℚ) (u : Option String) :
    (setLdl o v u).glucose = o.glucose := by cases v <;> rfl

@[simp] theorem setLdl_tc (o : LabOut) (v : Option ℚ) (u : Option String) :
    (setLdl o v u).tc = o.tc := by cases v <;> rfl

@[simp] theorem setLdl_hdl (o : LabOut) (v : Option ℚ) (u : Option String) :
    (setLdl o v u).hdl = o.hdl := by cases v <;> rfl

@[simp] theorem setLdl_trig (o : LabOut) (v : Option ℚ) (u : Option String) :
    (setLdl o v u).triglycerides = o.triglycerides := by cases v <;> rfl

@[simp] theorem setLdl_creat (o : LabOut) (v : Option ℚ) (u : Option String) :
    (setLdl o v u).creatinine_umolL = o.creatinine_umolL := by cases v <;> rfl

@[simp] theorem setTrig_none (o : LabOut) (u : Option String) :
    setTrig o none u = o := rfl

@[simp] theorem setTrig_trig (o : LabOut) (x : ℚ) (u : Option String) :
    (setTrig o (some x) u).triglycerides = some x := rfl

@[simp] theorem setTrig_glucose (o : LabOut) (v : Option ℚ) (u : Option String) :
    (setTrig o v u).glucose = o.glucose := by cases v <;> rfl

@[simp] theorem setTrig_tc (o : LabOut) (v : Option ℚ) (u : Option String) :
    (setTrig o v u).tc = o.tc := by cases v <;> rfl

@[simp] theorem setTrig_hdl (o : LabOut) (v : Option ℚ) (u : Option String) :
    (setTrig o v u).hdl = o.hdl := by cases v <;> rfl

@[simp] theorem setTrig_ldl (o : LabOut) (v : Option ℚ) (u : Option String) :
    (setTrig o v u).ldl = o.ldl := by cases v <;> rfl

@[simp] theorem setTrig_creat (o : LabOut) (v : Option ℚ) (u : Option String) :
    (setTrig o v u).creatinine_umolL = o.creatinine_umolL := by cases v <;> rfl

@[simp] theorem setCreat_none (o : LabOut) : setCreat o none = o := rfl

@[simp] theorem setCreat_creat (o : LabOut) (x : ℚ) :
    (setCreat o (some x)).creatinine_umolL = some x := rfl

@[simp] theorem setCreat_glucose (o : LabOut) (v : Option ℚ) :
    (setCreat o v).glucose = o.glucose := by cases v <;> rfl

@[simp] theorem setCreat_tc (o : LabOut) (v : Option ℚ) :
    (setCreat o v).tc = o.tc := by cases v <;> rfl

@[simp] theorem setCreat_hdl (o : LabOut) (v : Option ℚ) :
    (setCreat o v).hdl = o.hdl := by cases v <;> rfl

@[simp] theorem setCreat_ldl (o : LabOut) (v : Option ℚ) :
    (setCreat o v).ldl = o.ldl := by cases v <;> rfl

@[simp] theorem setCreat_trig (o : LabOut) (v : Option ℚ) :
    (setCreat o v).triglycerides = o.triglycerides := by cases v <;> rfl

@[simp] theorem some_orElse_q (x : ℚ) (f : Unit → Option ℚ) :
    (some x).orElse f = some x := rfl

@[simp] theorem none_orElse_q (f : Unit → Option ℚ) :
    (none : Option ℚ).orElse f = f () := rfl

@[simp] theorem labOutEmpty_glucose : LabOut.empty.glucose = none := rfl

@[simp] theorem labOutEmpty_tc : LabOut.empty.tc = none := rfl

@[simp] theorem labOutEmpty_hdl : LabOut.empty.hdl = none := rfl

@[simp] theorem labOutEmpty_ldl : LabOut.empty.ldl = none := rfl

@[simp] theorem labOutEmpty_trig : LabOut.empty.triglycerides = none := rfl

@[simp] theorem labOutEmpty_creat : LabOut.empty.creatinine_umolL = none := rfl

@[simp] theorem pdfGlucoseBlock_tc (mg mmol : Option ℚ) (o : LabOut) :
    (pdfGlucoseBlock mg mmol o).tc = o.tc := by (simp only [pdfGlucoseBlock]; split_ifs <;> simp_all)

@[simp] theorem pdfGlucoseBlock_hdl (mg mmol : Option ℚ) (o : LabOut) :
    (pdfGlucoseBlock mg mmol o).hdl = o.hdl := by (simp only [pdfGlucoseBlock]; split_ifs <;> simp_all)

@[simp] theorem pdfGlucoseBlock_ldl (mg mmol : Option ℚ) (o : LabOut) :
    (pdfGlucoseBlock mg mmol o).ldl = o.ldl := by (simp only [pdfGlucoseBlock]; split_ifs <;> simp_all)

@[simp] theorem pdfGlucoseBlock_trig (mg mmol : Option ℚ) (o : LabOut) :
    (pdfGlucoseBlock mg mmol o).triglycerides = o.triglycerides := by
  (simp only [pdfGlucoseBlock]; split_ifs <;> simp_all)

@[simp] theorem pdfGlucoseBlock_creat (mg mmol : Option ℚ) (o : LabOut) :
    (pdfGlucoseBlock mg mmol o).creatinine_umolL = o.creatinine_umolL := by
  (simp only [pdfGlucoseBlock]; split_ifs <;> simp_all)

@[simp] theorem pdfTcBlock_glucose (mg mmol : Option ℚ) (o : LabOut) :
    (pdfTcBlock mg mmol o).glucose = o.glucose := by (simp only [pdfTcBlock]; split_ifs <;> simp_all)

@[simp] theorem pdfTcBlock_hdl (mg mmol : Option ℚ) (o : LabOut) :
    (pdfTcBlock mg mmol o).hdl = o.hdl := by (simp only [pdfTcBlock]; split_ifs <;> simp_all)

@[simp] theorem pdfTcBlock_ldl (mg mmol : Option ℚ) (o : LabOut) :
    (pdfTcBlock mg mmol o).ldl = o.ldl := by (simp only [pdfTcBlock]; split_ifs <;> simp_all)

@[simp] theorem pdfTcBlock_trig (mg mmol : Option ℚ) (o : LabOut) :
    (pdfTcBlock mg mmol o).triglycerides = o.triglycerides := by
  (simp only [pdfTcBlock]; split_ifs <;> simp_all)

@[simp] theorem pdfTcBlock_creat (mg mmol : Option ℚ) (o : LabOut) :
    (pdfTcBlock mg mmol o).creatinine_umolL = o.creatinine_umolL := by
  (simp only [pdfTcBlock]; split_ifs <;> simp_all)

@[simp] theorem pdfHdlBlock_glucose (mg mmol : Option ℚ) (o : LabOut) :
    (pdfHdlBlock mg mmol o).glucose = o.glucose := by (simp only [pdfHdlBlock]; split_ifs <;> simp_all)

@[simp] theorem pdfHdlBlock_tc (mg mmol : Option ℚ) (o : LabOut) :
    (pdfHdlBlock mg mmol o).tc = o.tc := by (simp only [pdfHdlBlock]; split_ifs <;> simp_all)

@[simp] theorem pdfHdlBlock_ldl (mg mmol : Option ℚ) (o : LabOut) :
    (pdfHdlBlock mg mmol o).ldl = o.ldl := by (simp only [pdfHdlBlock]; split_ifs <;> simp_all)

@[simp] theorem pdfHdlBlock_trig (mg mmol : Option ℚ) (o : LabOut) :
    (pdfHdlBlock mg mmol o).triglycerides = o.triglycerides := by
  (simp only [pdfHdlBlock]; split_ifs <;> simp_all)

@[simp] theorem pdfHdlBlock_creat (mg mmol : Option ℚ) (o : LabOut) :
    (pdfHdlBlock mg mmol o).creatinine_umolL = o.creatinine_umolL := by
  (simp only [pdfHdlBlock]; split_ifs <;> simp_all)

@[simp] theorem pdfLdlBlock_glucose (mg mmol : Option ℚ) (o : LabOut) :
    (pdfLdlBlock mg mmol o).glucose = o.glucose := by (simp only [pdfLdlBlock]; split_ifs <;> simp_all)

@[simp] theorem pdfLdlBlock_tc (mg mmol : Option ℚ) (o : LabOut) :
    (pdfLdlBlock mg mmol o).tc = o.tc := by (simp only [pdfLdlBlock]; split_ifs <;> simp_all)

@[simp] theorem pdfLdlBlock_hdl (mg mmol : Option ℚ) (o : LabOut) :
    (pdfLdlBlock mg mmol o).hdl = o.hdl := by (simp only [pdfLdlBlock]; split_ifs <;> simp_all)

@[simp] theorem pdfLdlBlock_trig (mg mmol : Option ℚ) (o : LabOut) :
    (pdfLdlBlock mg mmol o).triglycerides = o.triglycerides := by
  (simp only [pdfLdlBlock]; split_ifs <;> simp_all)

@[simp] theorem pdfLdlBlock_creat (mg mmol : Option ℚ) (o : LabOut) :
    (pdfLdlBlock mg mmol o).creatinine_umolL = o.creatinine_umolL := by
  (simp only [pdfLdlBlock]; split_ifs <;> simp_all)

@[simp] theorem pdfTrigBlock_glucose (mg mmol : Option ℚ) (o : LabOut) :
    (pdfTrigBlock mg mmol o).glucose = o.glucose := by (simp only [pdfTrigBlock]; split_ifs <;> simp_all)

@[simp] theorem pdfTrigBlock_tc (mg mmol : Option ℚ) (o : LabOut) :
    (pdfTrigBlock mg mmol o).tc = o.tc := by (simp only [pdfTrigBlock]; split_ifs <;> simp_all)

@[simp] theorem pdfTrigBlock_hdl (mg mmol : Option ℚ) (o : LabOut) :
    (pdfTrigBlock mg mmol o).hdl = o.hdl := by (simp only [pdfTrigBlock]; split_ifs <;> simp_all)

@[simp] theorem pdfTrigBlock_ldl (mg mmol : Option ℚ) (o : LabOut) :
    (pdfTrigBlock mg mmol o).ldl = o.ldl := by (simp only [pdfTrigBlock]; split_ifs <;> simp_all)

@[simp] theorem pdfTrigBlock_creat (mg mmol : Option ℚ) (o : LabOut) :
    (pdfTrigBlock mg mmol o).creatinine_umolL = o.creatinine_umolL := by
  (simp only [pdfTrigBlock]; split_ifs <;> simp_all)

@[simp] theorem pdfCreatBlock_glucose (molL mgdl : Option ℚ) (o : LabOut) :
    (pdfCreatBlock molL mgdl o).glucose = o.glucose := by
  (simp only [pdfCreatBlock]; split_ifs <;> simp_all)

@[simp] theorem pdfCreatBlock_tc (molL mgdl : Option ℚ) (o : LabOut) :
    (pdfCreatBlock molL mgdl o).tc = o.tc := by (simp only [pdfCreatBlock]; split_ifs <;> simp_all)

@[simp] theorem pdfCreatBlock_hdl (molL mgdl : Option ℚ) (o : LabOut) :
    (pdfCreatBlock molL mgdl o).hdl = o.hdl := by (simp only [pdfCreatBlock]; split_ifs <;> simp_all)

@[simp] theorem pdfCreatBlock_ldl (molL mgdl : Option ℚ) (o : LabOut) :
    (pdfCreatBlock molL mgdl o).ldl = o.ldl := by (simp only [pdfCreatBlock]; split_ifs <;> simp_all)

@[simp] theorem pdfCreatBlock_trig (molL mgdl : Option ℚ) (o : LabOut) :
    (pdfCreatBlock molL mgdl o).triglycerides = o.triglycerides := by
  (simp only [pdfCreatBlock]; split_ifs <;> simp_all)

theorem pdfGlucoseBlock_glucose_some (v : ℚ) (mmol : Option ℚ) (o : LabOut) :
    (pdfGlucoseBlock (some v) mmol o).glucose = some v := by
  (simp only [pdfGlucoseBlock]; split_ifs <;> simp_all)

theorem pdfGlucoseBlock_glucose_none (mmol : Option ℚ) (o : LabOut)
    (h : o.glucose = none) : (pdfGlucoseBlock none mmol o).glucose = mmol := by
  cases mmol <;> (simp only [pdfGlucoseBlock]; split_ifs <;> simp_all)

theorem pdfTcBlock_tc_some (v : ℚ) (mmol : Option ℚ) (o : LabOut) (hv : v ≠ 0) :
    (pdfTcBlock (some v) mmol o).tc = some v := by
  (simp only [pdfTcBlock]; split_ifs <;> simp_all)

theorem pdfTcBlock_tc_zero (w : ℚ) (o : LabOut) :
    (pdfTcBlock (some 0) (some w) o).tc = some w := by
  (simp only [pdfTcBlock]; split_ifs <;> simp_all)

theorem pdfTcBlock_tc_none (mmol : Option ℚ) (o : LabOut) (h : o.tc = none) :
    (pdfTcBlock none mmol o).tc = mmol := by
  cases mmol <;> (simp only [pdfTcBlock]; split_ifs <;> simp_all)

theorem pdfHdlBlock_hdl_some (v : ℚ) (mmol : Option ℚ) (o : LabOut) (hv : v ≠ 0) :
    (pdfHdlBlock (some v) mmol o).hdl = some v := by
  (simp only [pdfHdlBlock]; split_ifs <;> simp_all)

theorem pdfHdlBlock_hdl_zero (w : ℚ) (o : LabOut) :
    (pdfHdlBlock (some 0) (some w) o).hdl = some w := by
  (simp only [pdfHdlBlock]; split_ifs <;> simp_all)

theorem pdfHdlBlock_hdl_none (mmol : Option ℚ) (o : LabOut) (h : o.hdl = none) :
    (pdfHdlBlock none mmol o).hdl = mmol := by
  cases mmol <;> (simp only [pdfHdlBlock]; split_ifs <;> simp_all)

theorem pdfLdlBlock_ldl_some (v : ℚ) (mmol : Option ℚ) (o : LabOut) (hv : v ≠ 0) :
    (pdfLdlBlock (some v) mmol o).ldl = some v := by
  (simp only [pdfLdlBlock]; split_ifs <;> simp_all)

theorem pdfLdlBlock_ldl_zero (w : ℚ) (o : LabOut) :
    (pdfLdlBlock (some 0) (some w) o).ldl = some w := by
  (simp only [pdfLdlBlock]; split_ifs <;> simp_all)

theorem pdfLdlBlock_ldl_none (mmol : Option ℚ) (o : LabOut) (h : o.ldl = none) :
    (pdfLdlBlock none mmol o).ldl = mmol := by
  cases mmol <;> (simp only [pdfLdlBlock]; split_ifs <;> simp_all)

theorem pdfTrigBlock_trig_some (v : ℚ) (mmol : Option ℚ) (o : LabOut) (hv : v ≠ 0) :
    (pdfTrigBlock (some v) mmol o).triglycerides = some v := by
  (simp only [pdfTrigBlock]; split_ifs <;> simp_all)

theorem pdfTrigBlock_trig_zero (w : ℚ) (o : LabOut) :
    (pdfTrigBlock (some 0) (some w) o).triglycerides = some w := by
  (simp only [pdfTrigBlock]; split_ifs <;> simp_all)

theorem pdfTrigBlock_trig_none (mmol : Option ℚ) (o : LabOut)
    (h : o.triglycerides = none) : (pdfTrigBlock none mmol o).triglycerides = mmol := by
  cases mmol <;> (simp only [pdfTrigBlock]; split_ifs <;> simp_all)

theorem pdfCreatBlock_creat_some (v : ℚ) (mgdl : Option ℚ) (o : LabOut) :
    (pdfCreatBlock (some v) mgdl o).creatinine_umolL = some v := by
  (simp only [pdfCreatBlock]; split_ifs <;> simp_all)

theorem pdfCreatBlock_creat_none (mgdl : Option ℚ) (o : LabOut)
    (h : o.creatinine_umolL = none) :
    (pdfCreatBlock none mgdl o).creatinine_umolL = mgdl.map (fun w => w * 88.4) := by
  cases mgdl <;> (simp only [pdfCreatBlock]; split_ifs <;> simp_all)

/-- If every key is strictly above p the lookup loop never updates its
accumulator. -/
theorem chooseAux_const (p : Int) (keys : List Int) (c : Int)
    (h : ∀ k ∈ keys, p < k) : chooseAux p keys c = c := by
  induction keys generalizing c with
  | nil => rfl
  | cons k ks ih =>
    have hk : p < k := h k (by simp)
    have hk2 : ¬ (k ≤ p) := not_le.mpr hk
    simp only [chooseAux, if_neg hk2]
    exact ih c (fun x hx => h x (by simp [hx]))

/-- On an ascending key list the lookup loop lands on the greatest key that
is at most p, independent of the accumulator it starts from. -/
theorem chooseAux_eq_max (p : Int) (keys : List Int) (m : Int)
    (hs : keys.Pairwise (· ≤ ·)) (hm : m ∈ keys) (hmp : m ≤ p)
    (hmax : ∀ k ∈ keys, k ≤ p → k ≤ m) :
    ∀ c, chooseAux p keys c = m := by
  induction keys with
  | nil => cases hm
  | cons k ks ih =>
    intro c
    rcases List.pairwise_cons.mp hs with ⟨hle, hs2⟩
    by_cases hex : ∃ x ∈ ks, x ≤ p
    · rcases hex with ⟨x, hx, hxp⟩
      have hm2 : m ∈ ks := by
        rcases List.mem_cons.mp hm with rfl | h2
        · have h1 : x ≤ m := hmax x (by simp [hx]) hxp
          have h2 : m ≤ x := hle x hx
          have hxm : x = m := le_antisymm h1 h2
          rwa [← hxm]
        · exact h2
      simp only [chooseAux]
      exact ih hs2 hm2 (fun y hy hyp => hmax y (by simp [hy]) hyp) _
    · push_neg at hex
      have hmk : m = k := by
        rcases List.mem_cons.mp hm with rfl | h2
        · rfl
        · exact absurd hmp (not_le.mpr (hex m h2))
      subst hmk
      simp only [chooseAux, if_pos hmp]
      exact chooseAux_const p ks m (fun x hx => hex x hx)

/-- The percentage read out of a points table stays inside any interval
around 1 that contains all stored values. -/
theorem tableGetQ_bounds (tbl : List (Int × ℚ)) (k : Int) (lo hi : ℚ)
    (h1 : lo ≤ 1) (h2 : 1 ≤ hi) (h : ∀ e ∈ tbl, lo ≤ e.2 ∧ e.2 ≤ hi) :
    lo ≤ tableGetQ tbl k ∧ tableGetQ tbl k ≤ hi := by
  unfold tableGetQ
  cases hf : tbl.find? (fun e => e.1 == k) with
  | none => exact ⟨h1, h2⟩
  | some e =>
    have he : e ∈ tbl := List.mem_of_find?_eq_some hf
    have hb := h e he
    by_cases h0 : e.2 = 0
    · simp only [if_pos h0]
      exact ⟨h1, h2⟩
    · simp only [if_neg h0]
      exact hb

/-- Both sex-specific Framingham percentage outputs lie in [1, 100]. -/
theorem framPct_bounds (male : Bool) (p : Int) :
    1 ≤ framPctFromPoints male p ∧ framPctFromPoints male p ≤ 100 := by
  have h : ∀ e ∈ framMap male, (1:ℚ) ≤ e.2 ∧ e.2 ≤ 100 := by
    cases male <;> (with_unfolding_all decide)
  exact tableGetQ_bounds _ _ 1 100 le_rfl (by norm_num) h

/-- The risk percentage of Framingham.points is the table stage applied to
its own total points. -/
theorem framingham_risk_eq (i : FraminghamInput) :
    (Framingham.points i).2 = framPctFromPoints (jsStartsWithM i.sex) (Framingham.points i).1 := rfl

/-- A value falling in no band scores no band points. -/
theorem bandPts_eq_zero (bands : List (ℚ × ℚ × Int)) (x : ℚ)
    (h : ∀ b ∈ bands, ¬ (b.1 ≤ x ∧ x ≤ b.2.1)) : bandPts bands x = 0 := by
  induction bands with
  | nil => rfl
  | cons b bs ih =>
    obtain ⟨lo, hi, pt⟩ := b
    have hb := h (lo, hi, pt) (by simp)
    simp only [bandPts, if_neg hb]
    exact ih (fun y hy => h y (by simp [hy]))

/-- The mortality percentage produced by the Gompertz stage lies in
[0, 100] whenever the exponential oracle is positive, at most 1 on
nonpositive arguments and at least 1 on nonnegative ones (as the real
exponential is). -/
theorem phenoMort_pct_bounds (expQ : ℚ → ℚ)
    (h1 : ∀ x, 0 < expQ x) (h2 : ∀ x, x ≤ 0 → expQ x ≤ 1)
    (h3 : ∀ x, 0 ≤ x → 1 ≤ expQ x) (xb : ℚ) :
    0 ≤ phenoMort expQ xb * 100 ∧ phenoMort expQ xb * 100 ≤ 100 := by
  unfold phenoMort
  have hE : 0 < expQ xb := h1 xb
  have hG : (1:ℚ) ≤ expQ (120 * 0.0077) := h3 _ (by norm_num)
  have hnum : -(expQ xb) * (expQ (120 * 0.0077) - 1) ≤ 0 := by nlinarith
  have ht : -(expQ xb) * (expQ (120 * 0.0077) - 1) / 0.0077 ≤ 0 := by
    apply div_nonpos_of_nonpos_of_nonneg hnum
    norm_num
  have hle := h2 _ ht
  have hpos := h1 (-(expQ xb) * (expQ (120 * 0.0077) - 1) / 0.0077)
  constructor
  · nlinarith
  · nlinarith

/-! ## Claim theorems -/

/-- C5: for every non-null base percentage and every family-history record,
familyHistoryAdj returns base times (1 + 0.10 first + 0.05 second + 0.02
third) clamped to at most 95 (base 10 with two first-degree relatives gives
12); a null base stays null for every family-history argument. -/
theorem c5_family_history_adjustment :
    (∀ (b : ℚ) (f : FamilyHistory),
       familyHistoryAdj (some b) (some f) =
         some (min 95 (b * (1 + jsOrZero f.first * 0.10 + jsOrZero f.second * 0.05
                              + jsOrZero f.third * 0.02)))) ∧
    (∀ fh : Option FamilyHistory, familyHistoryAdj none fh = none) ∧
    familyHistoryAdj (some 10) (some ⟨some 2, some 0, some 0⟩) = some 12 := by
  refine ⟨fun b f => rfl, fun fh => ?_, ?_⟩
  · cases fh <;> rfl
  · with_unfolding_all decide

/-- C9: Derived.AIP is null when triglycerides or HDL is missing or HDL is
zero, and otherwise is log10 of the TG/HDL ratio after converting mmol/L
inputs to mg/dL; being a total function of its embedded arguments it never
throws, and the zero guard rules the division out. -/
theorem c9_aip_null_handling :
    (∀ (l : ℚ → ℚ) (h : Option ℚ) (u : String), Derived.AIP l none h u = none) ∧
    (∀ (l : ℚ → ℚ) (t : Option ℚ) (u : String), Derived.AIP l t none u = none) ∧
    (∀ (l : ℚ → ℚ) (t : ℚ) (u : String), Derived.AIP l (some t) (some 0) u = none) ∧
    (∀ (l : ℚ → ℚ) (t h : ℚ) (u : String), h ≠ 0 →
       Derived.AIP l (some t) (some h) u =
         some (l ((if u == "mmol/L" then Units.mmol_to_mgdl_trig t else t)
                / (if u == "mmol/L" then Units.mmol_to_mgdl_chol h else h)))) := by
  refine ⟨fun l h u => rfl, fun l t u => ?_, fun l t u => by simp [Derived.AIP],
          fun l t h u hh => by simp [Derived.AIP, hh]⟩
  cases t <;> rfl

/-- Witness for C9 at concrete inputs: HDL 2 is nonzero and AIP with the
identity in place of log10 computes the plain mg/dL ratio. -/
theorem c9_aip_null_handling_witness :
    (2:ℚ) ≠ 0 ∧ Derived.AIP (fun x => x) (some 3) (some 2) "mg/dL" = some (3 / 2) := by
  refine ⟨by norm_num, ?_⟩
  have h := c9_aip_null_handling.2.2.2 (fun x => x) 3 2 "mg/dL" (by norm_num)
  simpa using h

/-- C1 counterexample: with height_cm absent from the client record the
report-generated BMI is not null; the gathering stage substitutes the
default height 170 cm and BMI evaluates to 70/1.7^2 = 7000/289. -/
theorem c1_report_bmi_default_counterexample :
    reportBMI none (some 70) = some (7000 / 289) ∧ reportBMI none (some 70) ≠ none := by
  have h : reportBMI none (some 70) = some (7000 / 289) := by
    norm_num [reportBMI, gatherHeightCm, gatherWeightKg, jsOrDefault, BMI]
  exact ⟨h, by rw [h]; simp⟩

/-- C1 (amended): the pure calculators do propagate null (BMI is null when
height or weight is falsy), but Report.render substitutes default
demographics and biometrics (age 50, height 170, weight 70, waist 90,
sbp 120, dbp 80) before calling them, so during report generation those
absences do not surface as null; absence of the lab inputs (total
cholesterol or HDL) does propagate to a null CVD output. -/
theorem c1_null_propagation_amended :
    (∀ w : Option ℚ, BMI none w = none) ∧
    (∀ w : Option ℚ, BMI (some 0) w = none) ∧
    (∀ h : Option ℚ, BMI h none = none) ∧
    gatherAge none = 50 ∧ gatherHeightCm none = 170 ∧ gatherWeightKg none = 70 ∧
    gatherWaistCm none = 90 ∧ gatherSbp none = 120 ∧ gatherDbp none = 80 ∧
    reportBMI none (some 70) = some (7000 / 289) ∧
    (∀ (age : ℚ) (sex : String) (hdl : Option ℚ) (sbp : ℚ) (b1 b2 b3 : Bool)
       (fh : Option FamilyHistory), reportCVD age sex none hdl sbp b1 b2 b3 fh = none) ∧
    (∀ (age : ℚ) (sex : String) (tc : Option ℚ) (sbp : ℚ) (b1 b2 b3 : Bool)
       (fh : Option FamilyHistory), reportCVD age sex tc none sbp b1 b2 b3 fh = none) := by
  refine ⟨fun w => by cases w <;> rfl,
          fun w => by cases w <;> simp [BMI],
          fun h => by cases h <;> rfl,
          rfl, rfl, rfl, rfl, rfl, rfl,
          by norm_num [reportBMI, gatherHeightCm, gatherWeightKg, jsOrDefault, BMI],
          fun age sex hdl sbp b1 b2 b3 fh => by cases hdl <;> rfl,
          fun age sex tc sbp b1 b2 b3 fh => by cases tc <;> rfl⟩

/-- C2: detectCreatinine keeps a parsed value unchanged under a µmol-style
unit hint, multiplies by 88.4 under an mg/dl hint, applies the
greater-than-15 magnitude heuristic with no hint, and yields nothing when
the value does not parse to a number; the four concrete cases of the spec
evaluate as stated. -/
theorem c2_creatinine_normalization :
    (∀ (v : String) (x : ℚ) (hint : String),
       numParse v = some x → hasUmolToken (normList hint.data) = true →
       detectCreatinine v (some hint) = some x) ∧
    (∀ (v : String) (x : ℚ) (hint : String),
       numParse v = some x → hasUmolToken (normList hint.data) = false →
       containsList "mg/dl".data (normList hint.data) = true →
       detectCreatinine v (some hint) = some (x * 88.4)) ∧
    (∀ (v : String) (x : ℚ), numParse v = some x → 15 < x →
       detectCreatinine v none = some x) ∧
    (∀ (v : String) (x : ℚ), numParse v = some x → x ≤ 15 →
       detectCreatinine v none = some (x * 88.4)) ∧
    (∀ (v : String) (hint : Option String), numParse v = none →
       detectCreatinine v hint = none) ∧
    detectCreatinine "1.0" none = some 88.4 ∧
    detectCreatinine "80" none = some 80 ∧
    detectCreatinine "1.0" (some "mg/dL") = some 88.4 ∧
    detectCreatinine "80" (some "µmol/L") = some 80 := by
  have e1 : hasUmolToken (normList "".data) = false := by with_unfolding_all rfl
  have e2 : containsList "mg/dl".data (normList "".data) = false := by with_unfolding_all rfl
  refine ⟨?_, ?_, ?_, ?_, ?_, ?_, ?_, ?_, ?_⟩
  · intro v x hint h1 h2
    simp [detectCreatinine, h1, h2]
  · intro v x hint h1 h2 h3
    simp [detectCreatinine, h1, h2, h3]
  · intro v x h1 h2
    simp [detectCreatinine, e1, e2, h1, h2]
  · intro v x h1 h2
    simp [detectCreatinine, e1, e2, h1, not_lt.mpr h2]
  · intro v hint h
    unfold detectCreatinine
    by_cases h1 : hasUmolToken (normList (hint.getD "").data) = true
    · simp [h1, h]
    · by_cases h2 : containsList "mg/dl".data (normList (hint.getD "").data) = true
      · simp [h1, h2, h]
      · simp [h1, h2, h]
  · with_unfolding_all rfl
  · with_unfolding_all rfl
  · with_unfolding_all rfl
  · with_unfolding_all rfl

/-- Witness for C2: the µmol-hint clause applied at value 80 with hint
µmol/L, hypotheses discharged by evaluation. -/
theorem c2_creatinine_normalization_witness :
    numParse "80" = some 80 ∧ hasUmolToken (normList "µmol/L".data) = true ∧
    detectCreatinine "80" (some "µmol/L") = some 80 :=
  ⟨by with_unfolding_all rfl, by with_unfolding_all rfl,
   c2_creatinine_normalization.1 "80" 80 "µmol/L" (by with_unfolding_all rfl)
     (by with_unfolding_all rfl)⟩

/-- C3: for either sex the Framingham points-to-percentage stage is a floor
lookup: it returns the percentage stored at the greatest table key that is
at most the total points, and any total below the minimum key -100 still
resolves to the lowest table entry, whose percentage is 1. -/
theorem c3_framingham_floor_lookup (male : Bool) (p : Int) :
    (∀ m ∈ (framMap male).map Prod.fst, m ≤ p →
       (∀ k ∈ (framMap male).map Prod.fst, k ≤ p → k ≤ m) →
       framPctFromPoints male p = tableGetQ (framMap male) m) ∧
    (p < -100 → framPctFromPoints male p = tableGetQ (framMap male) (-100)) ∧
    tableGetQ (framMap male) (-100) = 1 := by
  have hsort : ((framMap male).map Prod.fst).Pairwise (· ≤ ·) := by
    cases male <;> (with_unfolding_all decide)
  have hhead : ((framMap male).map Prod.fst).headD 0 = -100 := by
    cases male <;> rfl
  have hmin : ∀ k ∈ (framMap male).map Prod.fst, -100 ≤ k := by
    cases male <;> (with_unfolding_all decide)
  refine ⟨?_, ?_, ?_⟩
  · intro m hm hmp hmax
    unfold framPctFromPoints chooseFloorKey
    rw [chooseAux_eq_max p _ m hsort hm hmp hmax]
  · intro hp
    unfold framPctFromPoints chooseFloorKey
    rw [chooseAux_const p _ _ (fun k hk => lt_of_lt_of_le hp (hmin k hk)), hhead]
  · cases male <;> (with_unfolding_all rfl)

/-- Witness for C3: total points -50 lie strictly between the keys -100 and
-1 of the male table; the floor lookup resolves to the lower key -100 and
yields 1 percent. -/
theorem c3_framingham_floor_lookup_witness :
    ((-100 : Int) ∈ (framMap true).map Prod.fst) ∧ ((-100 : Int) ≤ -50) ∧
    (∀ k ∈ (framMap true).map Prod.fst, k ≤ -50 → k ≤ -100) ∧
    framPctFromPoints true (-50) = tableGetQ (framMap true) (-100) ∧
    framPctFromPoints true (-50) = 1 := by
  have h1 : (-100 : Int) ∈ (framMap true).map Prod.fst := by with_unfolding_all decide
  have h2 : ((-100 : Int) ≤ -50) := by decide
  have h3 : ∀ k ∈ (framMap true).map Prod.fst, k ≤ -50 → k ≤ -100 := by
    with_unfolding_all decide
  have h4 := (c3_framingham_floor_lookup true (-50)).1 (-100) h1 h2 h3
  exact ⟨h1, h2, h3, h4, h4.trans (c3_framingham_floor_lookup true (-50)).2.2⟩

/-- C4: PhenotypicAge yields pheno_age = null and mortality = null as soon
as any one of the nine biomarkers or the chronological age is absent, and
yields non-null values for both outputs whenever all ten inputs are
present; there is no partial result.  (NaN and infinities have no
counterpart among the exact rationals, so the isNaN disjunct of the guard
is vacuous in this embedding.) -/
theorem c4_phenotypic_age_all_or_nothing (expQ logQ : ℚ → ℚ) (i : PhenoIn) :
    ((i.albumin_gL = none ∨ i.creatinine_umolL = none ∨ i.glucose_mmolL = none ∨
      i.crp_mgdl = none ∨ i.lymph_pct = none ∨ i.mcv_fl = none ∨ i.rdw_pct = none ∨
      i.alp_uL = none ∨ i.wbc_10e3_uL = none ∨ i.age_years = none) →
      PhenotypicAge expQ logQ i = ⟨none, none⟩) ∧
    ((i.albumin_gL ≠ none ∧ i.creatinine_umolL ≠ none ∧ i.glucose_mmolL ≠ none ∧
      i.crp_mgdl ≠ none ∧ i.lymph_pct ≠ none ∧ i.mcv_fl ≠ none ∧ i.rdw_pct ≠ none ∧
      i.alp_uL ≠ none ∧ i.wbc_10e3_uL ≠ none ∧ i.age_years ≠ none) →
      (PhenotypicAge expQ logQ i).pheno_age ≠ none ∧
      (PhenotypicAge expQ logQ i).mortality_10yr_pct ≠ none) := by
  constructor
  · intro h
    rcases h with h|h|h|h|h|h|h|h|h|h <;> simp [PhenotypicAge, h]
  · intro h
    obtain ⟨h1, h2, h3, h4, h5, h6, h7, h8, h9, h10⟩ := h
    simp [PhenotypicAge, Option.isNone_iff_eq_none, h1, h2, h3, h4, h5, h6, h7, h8, h9, h10]

/-- Witness for C4: with WBC missing both outputs are null; with all ten
inputs supplied both outputs are non-null (identity oracles in place of
exp and log). -/
theorem c4_phenotypic_age_all_or_nothing_witness :
    PhenotypicAge (fun x => x) (fun x => x)
      ⟨some 40, some 80, some 5, some 1, some 30, some 90, some 13, some 70, none, some 50⟩
      = ⟨none, none⟩ ∧
    (PhenotypicAge (fun x => x) (fun x => x)
      ⟨some 40, some 80, some 5, some 1, some 30, some 90, some 13, some 70, some 6, some 50⟩).pheno_age
      ≠ none ∧
    (PhenotypicAge (fun x => x) (fun x => x)
      ⟨some 40, some 80, some 5, some 1, some 30, some 90, some 13, some 70, some 6, some 50⟩).mortality_10yr_pct
      ≠ none := by
  refine ⟨(c4_phenotypic_age_all_or_nothing _ _ _).1 (by simp), ?_, ?_⟩
  · exact ((c4_phenotypic_age_all_or_nothing _ _ _).2 (by simp)).1
  · exact ((c4_phenotypic_age_all_or_nothing _ _ _).2 (by simp)).2

/-- C10: Framingham.points is total and never null: every input yields a
numeric risk percentage of at least 1; an absent systolic blood pressure is
read as 0 mmHg (and 0 mmHg earns 0 systolic points in every sex/treatment
tier); an age contained in no age band contributes 0 age points; and the
null-when-cholesterol-missing behaviour lives only in the report layer,
which skips the model whenever total cholesterol or HDL is absent. -/
theorem c10_framingham_totality :
    (∀ i : FraminghamInput, 1 ≤ (Framingham.points i).2) ∧
    (∀ i : FraminghamInput, i.sbp = none →
       Framingham.points i =
         Framingham.points ⟨i.age, i.sex, i.tc_mgdl, i.hdl_mgdl, some 0,
                            i.bp_treated, i.smoker, i.diabetes⟩) ∧
    (∀ treated male : Bool, framSbpPts 0 treated male = 0) ∧
    (∀ (male : Bool) (age : ℚ),
       (∀ b ∈ (if male then framAgeBandsM else framAgeBandsF),
          ¬ (b.1 ≤ age ∧ age ≤ b.2.1)) →
       bandPts (if male then framAgeBandsM else framAgeBandsF) age = 0) ∧
    (∀ (age : ℚ) (sex : String) (hdl : Option ℚ) (sbp : ℚ) (b1 b2 b3 : Bool)
       (fh : Option FamilyHistory), reportCVD age sex none hdl sbp b1 b2 b3 fh = none) ∧
    (∀ (age : ℚ) (sex : String) (tc : Option ℚ) (sbp : ℚ) (b1 b2 b3 : Bool)
       (fh : Option FamilyHistory), reportCVD age sex tc none sbp b1 b2 b3 fh = none) := by
  refine ⟨?_, ?_, ?_, ?_, ?_, ?_⟩
  · intro i
    rw [framingham_risk_eq]
    exact (framPct_bounds _ _).1
  · intro i h
    cases i
    simp only at h
    subst h
    rfl
  · decide
  · intro male age h
    exact bandPts_eq_zero _ _ h
  · intro age sex hdl sbp b1 b2 b3 fh
    cases hdl <;> rfl
  · intro age sex tc sbp b1 b2 b3 fh
    cases tc <;> rfl

/-- Witness for C10 at a concrete record: age 85 (in no age band), systolic
missing, cholesterol 100 (below the 160 table threshold). -/
theorem c10_framingham_totality_witness :
    1 ≤ (Framingham.points ⟨85, "Male", 100, none, none, false, false, false⟩).2 ∧
    Framingham.points ⟨85, "Male", 100, none, none, false, false, false⟩ =
      Framingham.points ⟨85, "Male", 100, none, some 0, false, false, false⟩ ∧
    bandPts framAgeBandsM 85 = 0 ∧
    reportCVD 85 "Male" none (some 50) 120 false false false none = none := by
  refine ⟨c10_framingham_totality.1 _, c10_framingham_totality.2.1 _ rfl, ?_,
          c10_framingham_totality.2.2.2.2.1 85 "Male" (some 50) 120 false false false none⟩
  have h := c10_framingham_totality.2.2.2.1 true 85 (by with_unfolding_all decide)
  simpa using h

/-- C6 counterexample: CAIDE can score 100 percent, and when the client
record carries no family-history record for the category the adjustment
passes the base through unclamped, so a family-history-adjusted output of
100 is produced, outside [0, 95]. -/
theorem c6_adjusted_output_exceeds_95 :
    familyHistoryAdj (some (CAIDE ⟨60, "Male", some 8, some 150, some 31, some 7, false⟩).2) none
      = some 100 ∧ ¬ ((100 : ℚ) ≤ 95) := by
  constructor
  · have h : (CAIDE ⟨60, "Male", some 8, some 150, some 31, some 7, false⟩).2 = 100 := by
      with_unfolding_all decide
    simp [familyHistoryAdj, h]
  · norm_num

/-- C6 (amended): every model's percentage output lies in [0, 100]
(PhenotypicAge mortality under the natural order assumptions on the
exponential oracle; the family-history adjustment under nonnegative
relative counts and a base in [0, 100]); outputs adjusted through a
present family-history record lie in [0, 95], but when the record for the
category is absent the adjustment returns the base unchanged, so such
outputs are only bounded by [0, 100]. -/
theorem c6_percentage_bounds_amended
    (fi : FraminghamInput) (fn : FINDRISCInput) (cs : ℚ) (ci : CAIDEInput)
    (egfr acr : ℚ) (cage : ℚ) (csex : String) (csm : Bool)
    (alc cbmi cact : Option ℚ) (expQ logQ : ℚ → ℚ)
    (hexp1 : ∀ x, 0 < expQ x) (hexp2 : ∀ x, x ≤ 0 → expQ x ≤ 1)
    (hexp3 : ∀ x, 0 ≤ x → 1 ≤ expQ x) (pin : PhenoIn)
    (b : ℚ) (hb0 : 0 ≤ b) (hb1 : b ≤ 100) (f : FamilyHistory)
    (hf1 : 0 ≤ jsOrZero f.first) (hf2 : 0 ≤ jsOrZero f.second)
    (hf3 : 0 ≤ jsOrZero f.third) :
    (0 ≤ (Framingham.points fi).2 ∧ (Framingham.points fi).2 ≤ 100) ∧
    (0 ≤ (FINDRISC fn).2 ∧ (FINDRISC fn).2 ≤ 100) ∧
    (0 ≤ COPD_PS cs ∧ COPD_PS cs ≤ 100) ∧
    (0 ≤ (CAIDE ci).2 ∧ (CAIDE ci).2 ≤ 100) ∧
    (0 ≤ KDIGO_risk egfr acr ∧ KDIGO_risk egfr acr ≤ 100) ∧
    (0 ≤ CancerGeneral cage csex csm alc cbmi cact ∧
       CancerGeneral cage csex csm alc cbmi cact ≤ 100) ∧
    (∀ q, (PhenotypicAge expQ logQ pin).mortality_10yr_pct = some q → 0 ≤ q ∧ q ≤ 100) ∧
    (∃ r, familyHistoryAdj (some b) (some f) = some r ∧ 0 ≤ r ∧ r ≤ 95) ∧
    familyHistoryAdj (some b) none = some b := by
  refine ⟨?_, ?_, ?_, ?_, ?_, ?_, ?_, ?_, rfl⟩
  · rw [framingham_risk_eq]
    exact ⟨le_trans (by norm_num) (framPct_bounds _ _).1, (framPct_bounds _ _).2⟩
  · show 0 ≤ FINDRISC_riskFromScore (FINDRISC_score fn) ∧
      FINDRISC_riskFromScore (FINDRISC_score fn) ≤ 100
    unfold FINDRISC_riskFromScore
    split_ifs <;> norm_num
  · unfold COPD_PS
    split_ifs <;> norm_num
  · show 0 ≤ CAIDE_riskFromScore (CAIDE_score ci) ∧ CAIDE_riskFromScore (CAIDE_score ci) ≤ 100
    unfold CAIDE_riskFromScore
    split_ifs <;> norm_num
  · unfold KDIGO_risk
    split_ifs <;> norm_num
  · constructor
    · unfold CancerGeneral
      exact le_trans (by norm_num) (le_max_left _ _)
    · unfold CancerGeneral
      rw [max_le_iff]
      refine ⟨by norm_num, ?_⟩
      split_ifs <;> norm_num
  · intro q hq
    unfold PhenotypicAge at hq
    by_cases hc : ([pin.albumin_gL, pin.creatinine_umolL, pin.glucose_mmolL,
        pin.crp_mgdl, pin.lymph_pct, pin.mcv_fl, pin.rdw_pct, pin.alp_uL,
        pin.wbc_10e3_uL, pin.age_years].any (fun v => v.isNone)) = true
    · rw [if_pos hc] at hq
      simp at hq
    · rw [if_neg hc] at hq
      simp only at hq
      have hq2 := Option.some.inj hq
      rw [← hq2]
      exact phenoMort_pct_bounds expQ hexp1 hexp2 hexp3 _
  · refine ⟨_, rfl, ?_, min_le_left _ _⟩
    have hrel : (1:ℚ) ≤ 1 + jsOrZero f.first * 0.10 + jsOrZero f.second * 0.05
        + jsOrZero f.third * 0.02 := by nlinarith
    exact le_min (by norm_num) (mul_nonneg hb0 (le_trans zero_le_one hrel))

/-- Witness for C6 at concrete inputs, with every order hypothesis
discharged at a constant exponential oracle and concrete records. -/
theorem c6_percentage_bounds_amended_witness :
    ((0:ℚ) ≤ 50 ∧ (50:ℚ) ≤ 100 ∧ (0:ℚ) ≤ jsOrZero (some 1)) ∧
    ((0 ≤ (Framingham.points ⟨50, "Male", 200, some 45, some 130, false, true, false⟩).2 ∧
        (Framingham.points ⟨50, "Male", 200, some 45, some 130, false, true, false⟩).2 ≤ 100) ∧
     (0 ≤ (FINDRISC ⟨50, 27, 95, true, true, false, false, none⟩).2 ∧
        (FINDRISC ⟨50, 27, 95, true, true, false, false, none⟩).2 ≤ 100) ∧
     (0 ≤ COPD_PS 3 ∧ COPD_PS 3 ≤ 100) ∧
     (0 ≤ (CAIDE ⟨50, "Female", some 12, some 120, some 25, some 5, true⟩).2 ∧
        (CAIDE ⟨50, "Female", some 12, some 120, some 25, some 5, true⟩).2 ≤ 100) ∧
     (0 ≤ KDIGO_risk 100 10 ∧ KDIGO_risk 100 10 ≤ 100) ∧
     (0 ≤ CancerGeneral 45 "Male" false none none none ∧
        CancerGeneral 45 "Male" false none none none ≤ 100) ∧
     (∀ q, (PhenotypicAge (fun _ => 1) (fun _ => 0)
        ⟨some 40, some 80, some 5, some 1, some 30, some 90, some 13, some 70,
         some 6, some 50⟩).mortality_10yr_pct = some q → 0 ≤ q ∧ q ≤ 100) ∧
     (∃ r, familyHistoryAdj (some 50) (some ⟨some 1, some 0, none⟩) = some r ∧
        0 ≤ r ∧ r ≤ 95) ∧
     familyHistoryAdj (some 50) none = some 50) :=
  ⟨⟨by norm_num, by norm_num, by simp [jsOrZero]⟩,
   c6_percentage_bounds_amended
     ⟨50, "Male", 200, some 45, some 130, false, true, false⟩
     ⟨50, 27, 95, true, true, false, false, none⟩ 3
     ⟨50, "Female", some 12, some 120, some 25, some 5, true⟩
     100 10 45 "Male" false none none none (fun _ => 1) (fun _ => 0)
     (fun x => by norm_num) (fun x hx => by norm_num) (fun x hx => by norm_num)
     ⟨some 40, some 80, some 5, some 1, some 30, some 90, some 13, some 70,
      some 6, some 50⟩
     50 (by norm_num) (by norm_num) ⟨some 1, some 0, none⟩
     (by simp [jsOrZero]) (by simp [jsOrZero]) (by simp [jsOrZero])⟩

/-- C7 counterexample: (a) for creatinine the µmol/L pattern is consulted
first: when both patterns match (µmol value 100, mg/dL value 2) the output
is 100, not the mg/dL-derived 176.8 the claimed mg/dL-first precedence
would give; (b) for HDL a 0-valued mg/dL match is overwritten by a later
mmol/L match because the guard tests truthiness rather than presence. -/
theorem c7_pdf_first_match_counterexample :
    (parsePDFText ⟨none, none, none, none, none, none, none, none, none, none,
        some 100, some 2⟩).creatinine_umolL = some 100 ∧
    ((100 : ℚ) ≠ 2 * 88.4) ∧ ((100 : ℚ) ≠ 2) ∧
    (parsePDFText ⟨none, none, none, none, some 0, some (3/2), none, none, none,
        none, none, none⟩).hdl = some (3/2) ∧
    ((3/2 : ℚ) ≠ 0) := by
  refine ⟨?_, by norm_num, by norm_num, ?_, by norm_num⟩
  · with_unfolding_all decide
  · with_unfolding_all decide

/-- C7 (amended): in the PDF-text normalization the glucose, TC, HDL, LDL
and triglyceride blocks try mg/dL first and then mmol/L; a nonzero value
stored from the mg/dL match is never overwritten by the mmol/L attempt,
but a stored 0 can be, because the guard tests js truthiness (for glucose
the stored value is nevertheless unaffected, since the saved match result
is reused); for creatinine the precedence is reversed: the µmol/L pattern
is tried first and the mg/dL pattern (times 88.4) is consulted only when
no µmol/L value was stored, under a proper null test. -/
theorem c7_pdf_match_precedence_amended :
    (∀ (m : PDFMatches) (v : ℚ), m.glucose_mg = some v →
       (parsePDFText m).glucose = some v) ∧
    (∀ m : PDFMatches, m.glucose_mg = none →
       (parsePDFText m).glucose = m.glucose_mmol) ∧
    (∀ (m : PDFMatches) (v : ℚ), m.tc_mg = some v → v ≠ 0 →
       (parsePDFText m).tc = some v) ∧
    (∀ (m : PDFMatches) (w : ℚ), m.tc_mg = some 0 → m.tc_mmol = some w →
       (parsePDFText m).tc = some w) ∧
    (∀ m : PDFMatches, m.tc_mg = none → (parsePDFText m).tc = m.tc_mmol) ∧
    (∀ (m : PDFMatches) (v : ℚ), m.hdl_mg = some v → v ≠ 0 →
       (parsePDFText m).hdl = some v) ∧
    (∀ (m : PDFMatches) (w : ℚ), m.hdl_mg = some 0 → m.hdl_mmol = some w →
       (parsePDFText m).hdl = some w) ∧
    (∀ m : PDFMatches, m.hdl_mg = none → (parsePDFText m).hdl = m.hdl_mmol) ∧
    (∀ (m : PDFMatches) (v : ℚ), m.ldl_mg = some v → v ≠ 0 →
       (parsePDFText m).ldl = some v) ∧
    (∀ (m : PDFMatches) (w : ℚ), m.ldl_mg = some 0 → m.ldl_mmol = some w →
       (parsePDFText m).ldl = some w) ∧
    (∀ m : PDFMatches, m.ldl_mg = none → (parsePDFText m).ldl = m.ldl_mmol) ∧
    (∀ (m : PDFMatches) (v : ℚ), m.trig_mg = some v → v ≠ 0 →
       (parsePDFText m).triglycerides = some v) ∧
    (∀ (m : PDFMatches) (w : ℚ), m.trig_mg = some 0 → m.trig_mmol = some w →
       (parsePDFText m).triglycerides = some w) ∧
    (∀ m : PDFMatches, m.trig_mg = none →
       (parsePDFText m).triglycerides = m.trig_mmol) ∧
    (∀ (m : PDFMatches) (v : ℚ), m.creat_mol = some v →
       (parsePDFText m).creatinine_umolL = some v) ∧
    (∀ (m : PDFMatches) (w : ℚ), m.creat_mol = none → m.creat_mgdl = some w →
       (parsePDFText m).creatinine_umolL = some (w * 88.4)) ∧
    (∀ m : PDFMatches, m.creat_mol = none → m.creat_mgdl = none →
       (parsePDFText m).creatinine_umolL = none) := by
  refine ⟨?_, ?_, ?_, ?_, ?_, ?_, ?_, ?_, ?_, ?_, ?_, ?_, ?_, ?_, ?_, ?_, ?_⟩
  · intro m v h
    simp only [parsePDFText, pdfCreatBlock_glucose, pdfTrigBlock_glucose,
      pdfLdlBlock_glucose, pdfHdlBlock_glucose, pdfTcBlock_glucose, h]
    exact pdfGlucoseBlock_glucose_some v _ _
  · intro m h
    simp only [parsePDFText, pdfCreatBlock_glucose, pdfTrigBlock_glucose,
      pdfLdlBlock_glucose, pdfHdlBlock_glucose, pdfTcBlock_glucose, h]
    exact pdfGlucoseBlock_glucose_none _ _ rfl
  · intro m v h hv
    simp only [parsePDFText, pdfCreatBlock_tc, pdfTrigBlock_tc, pdfLdlBlock_tc,
      pdfHdlBlock_tc, h]
    exact pdfTcBlock_tc_some v _ _ hv
  · intro m w h h2
    simp only [parsePDFText, pdfCreatBlock_tc, pdfTrigBlock_tc, pdfLdlBlock_tc,
      pdfHdlBlock_tc, h, h2]
    exact pdfTcBlock_tc_zero w _
  · intro m h
    simp only [parsePDFText, pdfCreatBlock_tc, pdfTrigBlock_tc, pdfLdlBlock_tc,
      pdfHdlBlock_tc, h]
    exact pdfTcBlock_tc_none _ _ (by simp)
  · intro m v h hv
    simp only [parsePDFText, pdfCreatBlock_hdl, pdfTrigBlock_hdl, pdfLdlBlock_hdl, h]
    exact pdfHdlBlock_hdl_some v _ _ hv
  · intro m w h h2
    simp only [parsePDFText, pdfCreatBlock_hdl, pdfTrigBlock_hdl, pdfLdlBlock_hdl, h, h2]
    exact pdfHdlBlock_hdl_zero w _
  · intro m h
    simp only [parsePDFText, pdfCreatBlock_hdl, pdfTrigBlock_hdl, pdfLdlBlock_hdl, h]
    exact pdfHdlBlock_hdl_none _ _ (by simp)
  · intro m v h hv
    simp only [parsePDFText, pdfCreatBlock_ldl, pdfTrigBlock_ldl, h]
    exact pdfLdlBlock_ldl_some v _ _ hv
  · intro m w h h2
    simp only [parsePDFText, pdfCreatBlock_ldl, pdfTrigBlock_ldl, h, h2]
    exact pdfLdlBlock_ldl_zero w _
  · intro m h
    simp only [parsePDFText, pdfCreatBlock_ldl, pdfTrigBlock_ldl, h]
    exact pdfLdlBlock_ldl_none _ _ (by simp)
  · intro m v h hv
    simp only [parsePDFText, pdfCreatBlock_trig, h]
    exact pdfTrigBlock_trig_some v _ _ hv
  · intro m w h h2
    simp only [parsePDFText, pdfCreatBlock_trig, h, h2]
    exact pdfTrigBlock_trig_zero w _
  · intro m h
    simp only [parsePDFText, pdfCreatBlock_trig, h]
    exact pdfTrigBlock_trig_none _ _ (by simp)
  · intro m v h
    simp only [parsePDFText, h]
    exact pdfCreatBlock_creat_some v _ _
  · intro m w h h2
    simp only [parsePDFText, h, h2]
    rw [pdfCreatBlock_creat_none _ _ (by simp)]
    rfl
  · intro m h h2
    simp only [parsePDFText, h, h2]
    rw [pdfCreatBlock_creat_none _ _ (by simp)]
    rfl

/-- Witness for C7: the creatinine µmol-first clause applied at the
concrete match results µmol 100 / mgdl 2. -/
theorem c7_pdf_match_precedence_amended_witness :
    (⟨none, none, none, none, none, none, none, none, none, none,
        some 100, some 2⟩ : PDFMatches).creat_mol = some 100 ∧
    (parsePDFText ⟨none, none, none, none, none, none, none, none, none, none,
        some 100, some 2⟩).creatinine_umolL = some 100 :=
  ⟨rfl, c7_pdf_match_precedence_amended.2.2.2.2.2.2.2.2.2.2.2.2.2.2.1
          ⟨none, none, none, none, none, none, none, none, none, none,
           some 100, some 2⟩ 100 rfl⟩

/-- C8: rows are resolved by the first matching KEYMAP rule in the fixed
rule order (keymapFirstMatch), and order is significant: a label matching
both the triglyceride rule and the later lymphocyte rule resolves to
triglycerides.  However, the total-cholesterol rule regular expression
(chol followed by a later total, or a cholesterol-comma-total form) does
NOT match the plain label "total cholesterol", so such a row matches no
rule at all and is dropped, contradicting the claim that it resolves to
the total-cholesterol analyte; the spelling "cholesterol, total" does
resolve to it. -/
theorem c8_total_cholesterol_label_dropped :
    keymapFirstMatch "Total Cholesterol" = none ∧
    keymapFirstMatch "Cholesterol, Total" = some AnalyteKey.tc ∧
    keymapFirstMatch "cholesterol total" = some AnalyteKey.tc ∧
    keymapFirstMatch "Triglyceride Lymphocytes" = some AnalyteKey.triglycerides ∧
    keymapFirstMatch "HDL" = some AnalyteKey.hdl := by
  refine ⟨?_, ?_, ?_, ?_, ?_⟩ <;> (with_unfolding_all rfl)
